import Mathlib

/-!
Shallow embedding of the Go HTTP service in `main.go` of
selcukusta/go_basic_web_api: the middleware chain (securityHeaders,
rateLimiter, requestLogger), the two handlers (helloHandler,
weatherHandler) and the data transformation from the upstream
Open-Meteo payload into the served weather records.

Modelling conventions:
- An HTTP request is a record of the fields the code reads: method,
  URL path, RemoteAddr, ContentLength, plus the arrival time `now`
  standing for the value of `time.Now()` observed by the middleware
  for this request.  Times are naturals in nanoseconds, matching
  Go `time.Duration` units; `time.Minute = 60000000000`.
- A `http.ResponseWriter` is modelled by `RW`: a header map (assoc
  list with set-replaces semantics), the committed status code
  (`WriteHeader` commits the first code written; later calls are
  ignored, as in net/http), and the body as a list of writes.
- Shared mutable process state (`requestCounts`, `lastReset`) and the
  log stream are gathered in `World` and threaded explicitly; a
  handler is a function `Request → World → RW → World × RW`.
- External nondeterminism of the weather endpoint (request build
  failure, transport errors, upstream status, body read, JSON parse)
  is an explicit `Upstream` parameter; the possibility that writing
  the JSON encoding to the client fails is the flag `encodeFails`
  (in that case the encoder output is not written and `http.Error`
  runs, as in the source).
- Go JSON values are the inductive `Json`; a Go slice is
  `GoSlice α := Option (List α)` so that the nil slice (`none`,
  encoded as JSON null by encoding/json) is distinguished from a
  non-nil slice.
-/

/-- A Go JSON value as produced by encoding/json.  Object fields are
kept in the order encoding/json emits them (struct field order). -/
inductive Json where
  | null : Json
  | str : String → Json
  | num : Float → Json
  | arr : List Json → Json
  | obj : List (String × Json) → Json

/-- One write to the response body: either plain text (http.Error,
fmt.Fprintln) or a serialized JSON document (json.Encoder.Encode). -/
inductive BodyChunk where
  | text : String → BodyChunk
  | json : Json → BodyChunk

/-- The part of `http.Request` the program reads. `now` models the
`time.Now()` observed when the request enters the middleware chain. -/
structure Request where
  method : String
  path : String
  remoteAddr : String
  contentLength : Int
  now : Nat

/-- Model of `http.ResponseWriter` plus the response it accumulates. -/
structure RW where
  headers : List (String × String)
  status : Option Nat
  body : List BodyChunk

def RW.init : RW := { headers := [], status := none, body := [] }

/-- `Header().Set(k, v)`: replace the value of `k`, or append it. -/
def headerSet (hs : List (String × String)) (k v : String) :
    List (String × String) :=
  match hs with
  | [] => [(k, v)]
  | (k0, v0) :: rest =>
    if k0 = k then (k0, v) :: rest else (k0, v0) :: headerSet rest k v

/-- Look a header up (`Header().Get`). -/
def headerGet (hs : List (String × String)) (k : String) : Option String :=
  match hs with
  | [] => none
  | (k0, v0) :: rest => if k0 = k then some v0 else headerGet rest k

/-- `w.WriteHeader(code)`: the first status written is committed;
net/http ignores superfluous later calls. -/
def writeHeader (w : RW) (code : Nat) : RW :=
  match w.status with
  | some _ => w
  | none => { w with status := some code }

/-- Append a body write. -/
def writeBody (w : RW) (c : BodyChunk) : RW :=
  { w with body := w.body ++ [c] }

/-- `http.Error(w, msg, code)`: sets text/plain and nosniff headers,
writes the status code, and writes `msg` followed by a newline. -/
def httpError (w : RW) (msg : String) (code : Nat) : RW :=
  let hs := headerSet w.headers "Content-Type" "text/plain; charset=utf-8"
  let hs := headerSet hs "X-Content-Type-Options" "nosniff"
  let w := { w with headers := hs }
  let w := writeHeader w code
  writeBody w (BodyChunk.text (msg ++ "\n"))

/-- The rate limiter globals `requestCounts` and `lastReset`. -/
structure RateState where
  requestCounts : List (String × Nat)
  lastReset : Nat
deriving DecidableEq

/-- All shared mutable process state plus the log stream. -/
structure World where
  rate : RateState
  log : List String

def World.init : World :=
  { rate := { requestCounts := [], lastReset := 0 }, log := [] }

/-- Go map read: a missing key yields the zero value 0. -/
def mapGet (m : List (String × Nat)) (k : String) : Nat :=
  match m with
  | [] => 0
  | (k0, v) :: rest => if k0 = k then v else mapGet rest k

/-- Go map write: overwrite the key or insert it. -/
def mapSet (m : List (String × Nat)) (k : String) (v : Nat) :
    List (String × Nat) :=
  match m with
  | [] => [(k, v)]
  | (k0, v0) :: rest =>
    if k0 = k then (k0, v) :: rest else (k0, v0) :: mapSet rest k v

/-- Append one line to the process log (`log.Printf`). -/
def logTo (st : World) (line : String) : World :=
  { st with log := st.log ++ [line] }

/-- An http.HandlerFunc in this embedding. -/
def HandlerFn : Type :=
  Request → World → RW → World × RW

/-- `time.Minute` in nanoseconds. -/
def timeMinute : Nat := 60000000000

/-- `maxRequests = 100`: max requests per minute per IP. -/
def maxRequests : Nat := 100

/-- `rateLimiter` from main.go: reset all counters when more than one
minute has elapsed since `lastReset`, increment this address, serve
429 when the count exceeds `maxRequests`, otherwise delegate. -/
def rateLimiter (next : HandlerFn) : HandlerFn := fun r st w =>
  let now := r.now
  let rate0 := st.rate
  let rate1 :=
    if now - rate0.lastReset > timeMinute then
      { requestCounts := [], lastReset := now }
    else rate0
  let clientIP := r.remoteAddr
  let newCount := mapGet rate1.requestCounts clientIP + 1
  let rate2 := { rate1 with
    requestCounts := mapSet rate1.requestCounts clientIP newCount }
  let st2 := { st with rate := rate2 }
  if newCount > maxRequests then
    (st2, httpError w "Rate limit exceeded" 429)
  else
    next r st2 w

/-- The line `requestLogger` logs on entry (method, path, address). -/
def requestLogLine (r : Request) : String :=
  r.method ++ " " ++ r.path ++ " " ++ r.remoteAddr

/-- `requestLogger` from main.go: log the request, delegate, log the
response time.  Purely observational on the response writer. -/
def requestLogger (next : HandlerFn) : HandlerFn := fun r st w =>
  let st1 := logTo st (requestLogLine r)
  let res := next r st1 w
  (logTo res.1 "Response time", res.2)

/-- `securityHeaders` from main.go: set the fixed security and CORS
headers, short-circuit OPTIONS with 200, otherwise delegate. -/
def securityHeaders (next : HandlerFn) : HandlerFn := fun r st w =>
  let hs := w.headers
  let hs := headerSet hs "X-Content-Type-Options" "nosniff"
  let hs := headerSet hs "X-Frame-Options" "DENY"
  let hs := headerSet hs "X-XSS-Protection" "1; mode=block"
  let hs := headerSet hs "Strict-Transport-Security"
    "max-age=31536000; includeSubDomains"
  let hs := headerSet hs "Content-Security-Policy" "default-src \x27self\x27"
  let hs := headerSet hs "Access-Control-Allow-Origin" "*"
  let hs := headerSet hs "Access-Control-Allow-Methods" "GET, OPTIONS"
  let hs := headerSet hs "Access-Control-Allow-Headers"
    "Content-Type, Authorization"
  let w := { w with headers := hs }
  if r.method = "OPTIONS" then
    (st, writeHeader w 200)
  else
    next r st w

/-- `HealthResponse` from main.go. -/
structure HealthResponse where
  message : String
  status : String

/-- encoding/json output for a `HealthResponse` (struct field order). -/
def encodeHealthResponse (h : HealthResponse) : Json :=
  Json.obj [("message", Json.str h.message), ("status", Json.str h.status)]

/-- `helloHandler` from main.go.  `encodeFails` models a failure of
`json.NewEncoder(w).Encode` (only possible as a write error); on
failure nothing of the encoding is written and `http.Error` runs. -/
def helloHandler (encodeFails : Bool) : HandlerFn := fun r st w =>
  if r.method ≠ "GET" then
    (st, httpError w "Method not allowed" 405)
  else if r.path ≠ "/api/health" then
    (st, httpError w "Not found" 404)
  else if r.contentLength > 0 then
    (st, httpError w "Request body not allowed" 400)
  else
    let w := { w with headers := headerSet w.headers "Content-Type" "application/json" }
    let w := writeHeader w 200
    if encodeFails then
      (logTo st "Error encoding response",
        httpError w "Internal server error" 500)
    else
      (st, writeBody w (BodyChunk.json
        (encodeHealthResponse { message := "Hello World!", status := "success" })))

/-- `WeatherData` from main.go: one served record. -/
structure WeatherData where
  time : String
  temperature_2m : Float

/-- The `Hourly` part of `OpenMeteoResponse`. -/
structure Hourly where
  time : List String
  temperature_2m : List Float

/-- `OpenMeteoResponse` from main.go: the parsed upstream payload. -/
structure OpenMeteoResponse where
  hourly : Hourly

/-- A Go slice: `none` is the nil slice, `some l` a non-nil slice with
elements `l`.  encoding/json encodes the nil slice as `null`. -/
def GoSlice (α : Type) : Type := Option (List α)

/-- `append(s, x)` on a Go slice: the result is always non-nil. -/
def goAppend {α : Type} (s : GoSlice α) (x : α) : GoSlice α :=
  match s with
  | none => some [x]
  | some l => some (l ++ [x])

/-- The element list of a Go slice (nil slice has no elements). -/
def GoSlice.toList {α : Type} (s : GoSlice α) : List α :=
  match s with
  | none => []
  | some l => l

/-- encoding/json output for one `WeatherData` (struct field order). -/
def encodeWeatherData (d : WeatherData) : Json :=
  Json.obj [("time", Json.str d.time),
            ("temperature_2m", Json.num d.temperature_2m)]

/-- encoding/json output for a `[]WeatherData` slice: `null` for the
nil slice, otherwise a JSON array. -/
def encodeWeatherSlice (s : GoSlice WeatherData) : Json :=
  match s with
  | none => Json.null
  | some l => Json.arr (l.map encodeWeatherData)

/-- The transformation loop of `weatherHandler`:
`for i := 0; i < len(time) && i < len(temps); i++ \x7b append ... \x7d`. -/
def transformLoop (times : List String) (temps : List Float) (i : Nat)
    (acc : GoSlice WeatherData) : GoSlice WeatherData :=
  if h : i < times.length ∧ i < temps.length then
    transformLoop times temps (i + 1)
      (goAppend acc
        { time := times.get ⟨i, h.1⟩, temperature_2m := temps.get ⟨i, h.2⟩ })
  else acc
termination_by times.length - i
decreasing_by simp_wf; omega

/-- The `weatherData` slice built by `weatherHandler`, starting from
the nil slice `var weatherData []WeatherData`. -/
def transformWeather (times : List String) (temps : List Float) :
    GoSlice WeatherData :=
  transformLoop times temps 0 none

/-- Outcome of reading the upstream response body. -/
inductive ReadResult where
  | readErr : ReadResult
  | bytes : Option OpenMeteoResponse → ReadResult

/-- Outcome of `client.Do(req)`. `timeoutErr` is the error case in
which `ctx.Err() == context.DeadlineExceeded`; `transportErr` any
other error; `ok status body` a response. -/
inductive DoResult where
  | timeoutErr : DoResult
  | transportErr : DoResult
  | ok : Nat → ReadResult → DoResult

/-- External nondeterminism of one weather request: whether
`http.NewRequestWithContext` succeeds, the outcome of the outbound
call, and whether writing the JSON encoding to the client fails. -/
structure Upstream where
  buildOk : Bool
  result : DoResult
  encodeFails : Bool

/-- `weatherHandler` from main.go. -/
def weatherHandler (u : Upstream) : HandlerFn := fun r st w =>
  if r.method ≠ "GET" then
    (st, httpError w "Method not allowed" 405)
  else if ¬ u.buildOk then
    (logTo st "Error creating request",
      httpError w "Failed to create weather request" 500)
  else
    match u.result with
    | DoResult.timeoutErr =>
      (logTo st "Weather API request timed out",
        httpError w "Weather service timeout" 504)
    | DoResult.transportErr =>
      (logTo st "Error fetching weather data",
        httpError w "Failed to fetch weather data" 500)
    | DoResult.ok status body =>
      if status ≠ 200 then
        (logTo st "Open-Meteo API returned status",
          httpError w "Weather service unavailable" 503)
      else
        match body with
        | ReadResult.readErr =>
          (logTo st "Error reading response body",
            httpError w "Failed to read weather data" 500)
        | ReadResult.bytes none =>
          (logTo st "Error parsing weather data",
            httpError w "Failed to parse weather data" 500)
        | ReadResult.bytes (some resp) =>
          let weatherData :=
            transformWeather resp.hourly.time resp.hourly.temperature_2m
          let hs := headerSet w.headers "Content-Type" "application/json"
          let hs := headerSet hs "Cache-Control" "public, max-age=300"
          let w := { w with headers := hs }
          let w := writeHeader w 200
          if u.encodeFails then
            (logTo st "Error encoding weather response",
              httpError w "Internal server error" 500)
          else
            (st, writeBody w (BodyChunk.json (encodeWeatherSlice weatherData)))

/-- The composed health endpoint built in `main`:
`securityHeaders(rateLimiter(requestLogger(helloHandler)))`. -/
def mainHealthHandler (encodeFails : Bool) : HandlerFn :=
  securityHeaders (rateLimiter (requestLogger (helloHandler encodeFails)))

/-- The composed weather endpoint built in `main`:
`securityHeaders(rateLimiter(requestLogger(weatherHandler)))`. -/
def mainWeatherHandler (u : Upstream) : HandlerFn :=
  securityHeaders (rateLimiter (requestLogger (weatherHandler u)))

/-- Serve a list of requests in order, each on a fresh response
writer, threading the shared process state. -/
def runRequests (h : HandlerFn) : List Request → World → World × List RW
  | [], st => (st, [])
  | r :: rs, st =>
    let res := h r st RW.init
    let rest := runRequests h rs res.1
    (rest.1, res.2 :: rest.2)

/-- A probe handler used to observe whether a middleware delegates:
it writes status 200 and touches nothing else. -/
def probe : HandlerFn := fun _ st w => (st, writeHeader w 200)

/-! ### Concrete requests and payloads used as witnesses -/

/-- A plain GET request for the health endpoint. -/
def healthReq : Request :=
  { method := "GET", path := "/api/health",
    remoteAddr := "127.0.0.1:5000", contentLength := 0, now := 0 }

/-- A plain GET request for the weather endpoint. -/
def weatherReq : Request :=
  { method := "GET", path := "/api/weather",
    remoteAddr := "127.0.0.1:5001", contentLength := 0, now := 0 }

/-- An upstream payload whose two arrays have unequal lengths. -/
def demoResp : OpenMeteoResponse :=
  { hourly := { time := ["2024-01-01T00:00", "2024-01-01T01:00",
      "2024-01-01T02:00"], temperature_2m := [1.5, 2.5] } }

/-- An upstream payload with an empty time array. -/
def demoRespEmpty : OpenMeteoResponse :=
  { hourly := { time := [], temperature_2m := [2.0] } }

/-- Client address used in the rate-limit scenario. -/
def limiterAddr : String := "203.0.113.9:4242"

/-- A GET request from `limiterAddr` arriving at time `t`. -/
def limiterReq (t : Nat) : Request :=
  { method := "GET", path := "/api/health", remoteAddr := limiterAddr,
    contentLength := 0, now := t }

/-- The fixed security and CORS headers set by `securityHeaders`. -/
def securityHeaderValues : List (String × String) :=
  [("X-Content-Type-Options", "nosniff"),
   ("X-Frame-Options", "DENY"),
   ("X-XSS-Protection", "1; mode=block"),
   ("Strict-Transport-Security", "max-age=31536000; includeSubDomains"),
   ("Content-Security-Policy", "default-src \x27self\x27"),
   ("Access-Control-Allow-Origin", "*"),
   ("Access-Control-Allow-Methods", "GET, OPTIONS"),
   ("Access-Control-Allow-Headers", "Content-Type, Authorization")]

/-- A header list carries every fixed security/CORS header. -/
def hasSec (hs : List (String × String)) : Prop :=
  ∀ p ∈ securityHeaderValues, headerGet hs p.1 = some p.2

/-- The response carries every fixed security/CORS header. -/
def hasSecurityHeaders (w : RW) : Prop := hasSec w.headers

/-! ### Lemmas about the weather transformation -/

lemma goAppend_eq {α : Type} (s : GoSlice α) (x : α) :
    goAppend s x = some (s.toList ++ [x]) := by
  cases s <;> simp [goAppend, GoSlice.toList]

lemma writeHeader_body (w : RW) (c : Nat) : (writeHeader w c).body = w.body := by
  cases h : w.status <;> simp [writeHeader, h]

lemma writeBody_headers (w : RW) (c : BodyChunk) :
    (writeBody w c).headers = w.headers := rfl

lemma writeHeader_headers (w : RW) (c : Nat) :
    (writeHeader w c).headers = w.headers := by
  cases h : w.status <;> simp [writeHeader, h]

lemma writeHeader_status_none (w : RW) (c : Nat) (h : w.status = none) :
    (writeHeader w c).status = some c := by
  simp [writeHeader, h]

lemma transformLoop_toList (times : List String) (temps : List Float)
    (i : Nat) (acc : GoSlice WeatherData) :
    (transformLoop times temps i acc).toList =
      acc.toList ++
        List.zipWith (fun t v => WeatherData.mk t v)
          (times.drop i) (temps.drop i) := by
  induction i, acc using transformLoop.induct times temps with
  | case1 i acc h ih =>
    rw [transformLoop, dif_pos h]
    rw [ih, goAppend_eq]
    simp only [GoSlice.toList]
    rw [List.drop_eq_getElem_cons h.1, List.drop_eq_getElem_cons h.2,
      List.zipWith_cons_cons, List.append_assoc]
    simp [List.get_eq_getElem]
  | case2 i acc h =>
    rw [transformLoop, dif_neg h]
    rcases Nat.lt_or_ge i times.length with h1 | h1
    · have h2 : temps.length ≤ i := by
        rcases Nat.lt_or_ge i temps.length with h2 | h2
        · exact absurd ⟨h1, h2⟩ h
        · exact h2
      simp [List.drop_eq_nil_of_le h2]
    · simp [List.drop_eq_nil_of_le h1]

lemma transformWeather_toList (times : List String) (temps : List Float) :
    (transformWeather times temps).toList =
      List.zipWith (fun t v => WeatherData.mk t v) times temps := by
  rw [transformWeather, transformLoop_toList]
  simp [GoSlice.toList]

lemma transformWeather_length (times : List String) (temps : List Float) :
    (transformWeather times temps).toList.length =
      min times.length temps.length := by
  rw [transformWeather_toList, List.length_zipWith]

lemma transformWeather_nil (times : List String) (temps : List Float)
    (h : times = [] ∨ temps = []) :
    transformWeather times temps = none := by
  rw [transformWeather, transformLoop]
  rcases h with h | h <;> simp [h]

lemma headerGet_headerSet (hs : List (String × String)) (k v k' : String) :
    headerGet (headerSet hs k v) k' =
      if k = k' then some v else headerGet hs k' := by
  induction hs with
  | nil =>
    simp only [headerSet, headerGet]
  | cons p rest ih =>
    obtain ⟨k0, v0⟩ := p
    by_cases h1 : k0 = k
    · subst h1
      by_cases h2 : k0 = k' <;> simp [headerSet, headerGet, h2]
    · by_cases h2 : k0 = k'
      · subst h2
        have : ¬ k = k0 := fun hx => h1 hx.symm
        simp [headerSet, headerGet, h1, this]
      · simp [headerSet, headerGet, h1, h2, ih]

lemma hasSec_set (hs : List (String × String)) (k v : String)
    (h : hasSec hs)
    (hk : ∀ p ∈ securityHeaderValues, p.1 = k → p.2 = v) :
    hasSec (headerSet hs k v) := by
  intro p hp
  rw [headerGet_headerSet]
  by_cases hkp : k = p.1
  · rw [if_pos hkp, hk p hp hkp.symm]
  · rw [if_neg hkp]
    exact h p hp

lemma hasSec_chain (hs0 : List (String × String)) :
    hasSec (headerSet (headerSet (headerSet (headerSet (headerSet (headerSet
      (headerSet (headerSet hs0 "X-Content-Type-Options" "nosniff")
        "X-Frame-Options" "DENY")
        "X-XSS-Protection" "1; mode=block")
        "Strict-Transport-Security" "max-age=31536000; includeSubDomains")
        "Content-Security-Policy" "default-src \x27self\x27")
        "Access-Control-Allow-Origin" "*")
        "Access-Control-Allow-Methods" "GET, OPTIONS")
        "Access-Control-Allow-Headers" "Content-Type, Authorization") := by
  intro p hp
  simp only [securityHeaderValues, List.mem_cons, List.not_mem_nil,
    or_false] at hp
  rcases hp with h | h | h | h | h | h | h | h <;>
    subst h <;> simp [headerGet_headerSet]

lemma hasSec_httpError (w : RW) (msg : String) (code : Nat)
    (h : hasSec w.headers) : hasSec (httpError w msg code).headers := by
  have : (httpError w msg code).headers =
      headerSet (headerSet w.headers "Content-Type"
        "text/plain; charset=utf-8") "X-Content-Type-Options" "nosniff" := by
    simp [httpError, writeBody_headers, writeHeader_headers]
  rw [this]
  exact hasSec_set _ _ _ (hasSec_set _ _ _ h (by decide)) (by decide)

lemma hasSec_helloHandler (ef : Bool) (r : Request) (st : World) (w : RW)
    (h : hasSec w.headers) :
    hasSec ((helloHandler ef) r st w).2.headers := by
  rw [helloHandler]
  repeat' split
  all_goals try dsimp only
  all_goals first
    | exact hasSec_httpError _ _ _ h
    | (refine hasSec_httpError _ _ _ ?_
       rw [writeHeader_headers]
       exact hasSec_set w.headers "Content-Type" "application/json" h
         (by decide))
    | (rw [writeBody_headers, writeHeader_headers]
       exact hasSec_set w.headers "Content-Type" "application/json" h
         (by decide))

lemma hasSec_weatherHandler (u : Upstream) (r : Request) (st : World)
    (w : RW) (h : hasSec w.headers) :
    hasSec ((weatherHandler u) r st w).2.headers := by
  have hcc : hasSec (headerSet (headerSet w.headers "Content-Type"
      "application/json") "Cache-Control" "public, max-age=300") :=
    hasSec_set _ "Cache-Control" "public, max-age=300"
      (hasSec_set w.headers "Content-Type" "application/json" h (by decide))
      (by decide)
  rw [weatherHandler]
  repeat' split
  all_goals try dsimp only
  all_goals first
    | exact hasSec_httpError _ _ _ h
    | (refine hasSec_httpError _ _ _ ?_
       rw [writeHeader_headers]
       exact hcc)
    | (rw [writeBody_headers, writeHeader_headers]
       exact hcc)

lemma hasSec_rateLimiter (next : HandlerFn) (r : Request) (st : World)
    (w : RW)
    (hnext : ∀ r' st' w', hasSec w'.headers →
      hasSec ((next r' st' w').2).headers)
    (h : hasSec w.headers) :
    hasSec ((rateLimiter next) r st w).2.headers := by
  rw [rateLimiter]
  repeat' split
  all_goals try dsimp only
  all_goals first
    | exact hasSec_httpError _ _ _ h
    | exact hnext _ _ _ h

lemma hasSec_requestLogger (next : HandlerFn) (r : Request) (st : World)
    (w : RW)
    (hnext : ∀ r' st' w', hasSec w'.headers →
      hasSec ((next r' st' w').2).headers)
    (h : hasSec w.headers) :
    hasSec ((requestLogger next) r st w).2.headers := by
  rw [requestLogger]
  exact hnext _ _ _ h

/-! ### Claim theorems -/

/-- C5: a GET request to the exact path /api/health with an empty body
gets status 200, Content-Type application/json, and a body that is
exactly the JSON object with fields message = "Hello World!" and
status = "success", in that order. -/
theorem health_success_spec (r : Request) (st : World)
    (hm : r.method = "GET") (hp : r.path = "/api/health")
    (hl : r.contentLength ≤ 0) :
    ((helloHandler false) r st RW.init).2.status = some 200 ∧
    headerGet ((helloHandler false) r st RW.init).2.headers "Content-Type" =
      some "application/json" ∧
    ((helloHandler false) r st RW.init).2.body =
      [BodyChunk.json (Json.obj [("message", Json.str "Hello World!"),
        ("status", Json.str "success")])] := by
  have hl' : ¬ r.contentLength > 0 := by omega
  simp [helloHandler, hm, hp, hl', RW.init, writeHeader, writeBody,
    headerSet, headerGet, encodeHealthResponse]

theorem health_success_spec_witness :
    healthReq.method = "GET" ∧
    ((helloHandler false) healthReq World.init RW.init).2.status = some 200 :=
  ⟨rfl, (health_success_spec healthReq World.init rfl rfl (by decide)).1⟩

/-- C6: the health handler rejects non-GET methods with 405, GET on a
wrong path with 404, and GET on /api/health with a positive content
length with 400, the checks applying in that order. -/
theorem health_rejection_spec (ef : Bool) (r : Request) (st : World) :
    (r.method ≠ "GET" →
      ((helloHandler ef) r st RW.init).2.status = some 405) ∧
    (r.method = "GET" → r.path ≠ "/api/health" →
      ((helloHandler ef) r st RW.init).2.status = some 404) ∧
    (r.method = "GET" → r.path = "/api/health" → r.contentLength > 0 →
      ((helloHandler ef) r st RW.init).2.status = some 400) := by
  refine ⟨fun hm => ?_, fun hm hp => ?_, fun hm hp hl => ?_⟩
  · simp [helloHandler, hm, RW.init, httpError, writeHeader, writeBody,
      headerSet]
  · simp [helloHandler, hm, hp, RW.init, httpError, writeHeader, writeBody,
      headerSet]
  · simp [helloHandler, hm, hp, hl, RW.init, httpError, writeHeader,
      writeBody, headerSet]

theorem health_rejection_spec_witness :
    ((helloHandler false)
        { healthReq with method := "POST" } World.init RW.init).2.status =
      some 405 ∧
    ((helloHandler false)
        { healthReq with path := "/api/missing" } World.init RW.init).2.status =
      some 404 ∧
    ((helloHandler false)
        { healthReq with contentLength := 7 } World.init RW.init).2.status =
      some 400 :=
  ⟨(health_rejection_spec false { healthReq with method := "POST" }
      World.init).1 (by decide),
   (health_rejection_spec false { healthReq with path := "/api/missing" }
      World.init).2.1 rfl (by decide),
   (health_rejection_spec false { healthReq with contentLength := 7 }
      World.init).2.2 rfl rfl (by decide)⟩

/-- C7 counterexample: when serialization fails on a valid health
request, the outward status is the already committed 200, not 500:
`w.WriteHeader(http.StatusOK)` runs before the encoder, so the 500
written by `http.Error` is a superfluous WriteHeader and is ignored. -/
theorem health_encode_failure_cex :
    ((helloHandler true) healthReq World.init RW.init).2.status = some 200 ∧
    ((helloHandler true) healthReq World.init RW.init).2.status ≠ some 500 := by
  constructor <;> decide

/-- C7 amended: on a serialization failure for a valid health request
the handler logs the failure and emits the generic internal-error
message, but the response status remains the already committed 200
rather than 500. -/
theorem health_encode_failure_spec (r : Request) (st : World)
    (hm : r.method = "GET") (hp : r.path = "/api/health")
    (hl : r.contentLength ≤ 0) :
    ((helloHandler true) r st RW.init).2.status = some 200 ∧
    ((helloHandler true) r st RW.init).2.body =
      [BodyChunk.text "Internal server error\n"] ∧
    ((helloHandler true) r st RW.init).1 =
      logTo st "Error encoding response" := by
  have hl' : ¬ r.contentLength > 0 := by omega
  simp [helloHandler, hm, hp, hl', RW.init, httpError, writeHeader,
    writeBody, headerSet]

theorem health_encode_failure_spec_witness :
    healthReq.contentLength ≤ 0 ∧
    ((helloHandler true) healthReq World.init RW.init).2.status = some 200 :=
  ⟨by decide, (health_encode_failure_spec healthReq World.init rfl rfl
    (by decide)).1⟩

/-- C1: on upstream success (status 200, readable body, parseable
payload, successful encoding) the weather handler answers 200 with
Cache-Control public, max-age=300, and the body is the serialization
of the transformed slice, whose records pair time[i] with
temperature_2m[i] in order and whose length is the minimum of the two
array lengths, for every pair of array lengths. -/
theorem weather_success_spec (r : Request) (st : World)
    (resp : OpenMeteoResponse) (hm : r.method = "GET") :
    ((weatherHandler
        ⟨true, DoResult.ok 200 (ReadResult.bytes (some resp)), false⟩)
        r st RW.init).2.status = some 200 ∧
    headerGet ((weatherHandler
        ⟨true, DoResult.ok 200 (ReadResult.bytes (some resp)), false⟩)
        r st RW.init).2.headers "Cache-Control" = some "public, max-age=300" ∧
    ((weatherHandler
        ⟨true, DoResult.ok 200 (ReadResult.bytes (some resp)), false⟩)
        r st RW.init).2.body =
      [BodyChunk.json (encodeWeatherSlice
        (transformWeather resp.hourly.time resp.hourly.temperature_2m))] ∧
    (transformWeather resp.hourly.time resp.hourly.temperature_2m).toList =
      List.zipWith (fun t v => WeatherData.mk t v)
        resp.hourly.time resp.hourly.temperature_2m ∧
    (transformWeather resp.hourly.time resp.hourly.temperature_2m).toList.length =
      min resp.hourly.time.length resp.hourly.temperature_2m.length := by
  refine ⟨?_, ?_, ?_, transformWeather_toList _ _, transformWeather_length _ _⟩
  all_goals
    simp [weatherHandler, hm, RW.init, writeHeader, writeBody, headerSet,
      headerGet]

theorem weather_success_spec_witness :
    weatherReq.method = "GET" ∧
    ((weatherHandler
        ⟨true, DoResult.ok 200 (ReadResult.bytes (some demoResp)), false⟩)
        weatherReq World.init RW.init).2.status = some 200 ∧
    (transformWeather demoResp.hourly.time
        demoResp.hourly.temperature_2m).toList.length =
      min demoResp.hourly.time.length demoResp.hourly.temperature_2m.length :=
  ⟨rfl,
   (weather_success_spec weatherReq World.init demoResp rfl).1,
   (weather_success_spec weatherReq World.init demoResp rfl).2.2.2.2⟩

/-- C2: on a GET request each upstream failure mode maps to its
distinct status: request construction failure 500, timeout 504,
other transport failure 500, upstream non-200 response 503, body-read
failure 500, parse failure 500. -/
theorem weather_failure_statuses (r : Request) (st : World)
    (hm : r.method = "GET") :
    (∀ res ef, ((weatherHandler ⟨false, res, ef⟩) r st RW.init).2.status =
      some 500) ∧
    (∀ ef, ((weatherHandler ⟨true, DoResult.timeoutErr, ef⟩)
      r st RW.init).2.status = some 504) ∧
    (∀ ef, ((weatherHandler ⟨true, DoResult.transportErr, ef⟩)
      r st RW.init).2.status = some 500) ∧
    (∀ s body ef, s ≠ 200 →
      ((weatherHandler ⟨true, DoResult.ok s body, ef⟩)
        r st RW.init).2.status = some 503) ∧
    (∀ ef, ((weatherHandler ⟨true, DoResult.ok 200 ReadResult.readErr, ef⟩)
      r st RW.init).2.status = some 500) ∧
    (∀ ef, ((weatherHandler
        ⟨true, DoResult.ok 200 (ReadResult.bytes none), ef⟩)
      r st RW.init).2.status = some 500) := by
  refine ⟨fun res ef => ?_, fun ef => ?_, fun ef => ?_,
    fun s body ef hs => by
      simp [weatherHandler, hm, hs, RW.init, httpError, writeHeader,
        writeBody, headerSet],
    fun ef => ?_, fun ef => ?_⟩
  all_goals
    simp [weatherHandler, hm, RW.init, httpError, writeHeader, writeBody,
      headerSet]

theorem weather_failure_statuses_witness :
    ((weatherHandler ⟨true, DoResult.timeoutErr, false⟩)
      weatherReq World.init RW.init).2.status = some 504 ∧
    ((weatherHandler ⟨true, DoResult.ok 502 ReadResult.readErr, false⟩)
      weatherReq World.init RW.init).2.status = some 503 :=
  ⟨(weather_failure_statuses weatherReq World.init rfl).2.1 false,
   (weather_failure_statuses weatherReq World.init rfl).2.2.2.1
     502 ReadResult.readErr false (by decide)⟩

/-- C9: when the parsed payload has an empty time array or an empty
temperature array, the built slice is the nil slice, the handler still
answers 200, and the serialized body is JSON null, which differs from
the empty JSON array. -/
theorem weather_empty_null_spec (r : Request) (st : World)
    (resp : OpenMeteoResponse) (hm : r.method = "GET")
    (h : resp.hourly.time = [] ∨ resp.hourly.temperature_2m = []) :
    transformWeather resp.hourly.time resp.hourly.temperature_2m = none ∧
    ((weatherHandler
        ⟨true, DoResult.ok 200 (ReadResult.bytes (some resp)), false⟩)
        r st RW.init).2.status = some 200 ∧
    ((weatherHandler
        ⟨true, DoResult.ok 200 (ReadResult.bytes (some resp)), false⟩)
        r st RW.init).2.body = [BodyChunk.json Json.null] ∧
    Json.null ≠ Json.arr [] := by
  have hnil := transformWeather_nil _ _ h
  refine ⟨hnil, ?_, ?_, fun hx => Json.noConfusion hx⟩
  · simp [weatherHandler, hm, RW.init, writeHeader, writeBody, headerSet]
  · simp [weatherHandler, hm, RW.init, writeHeader, writeBody, headerSet,
      hnil, encodeWeatherSlice]

/-- C3: the rate limiter clears all counters and updates the reset
timestamp when more than a minute has elapsed, increments the caller
address, serves 429 without invoking the wrapped handler when the
post-increment count exceeds 100, and delegates otherwise; in the
concrete scenario, the 101st request in one window gets 429 and a
request after the window succeeds with the counter restarted at 1. -/
theorem rateLimiter_spec (next : HandlerFn) (r : Request) (st : World)
    (w : RW) :
    (r.now - st.rate.lastReset > timeMinute →
      rateLimiter next r st w =
        next r { st with rate :=
          { requestCounts := [(r.remoteAddr, 1)], lastReset := r.now } } w) ∧
    (r.now - st.rate.lastReset ≤ timeMinute →
      mapGet st.rate.requestCounts r.remoteAddr + 1 > maxRequests →
      (∀ other : HandlerFn,
        rateLimiter other r st w = rateLimiter next r st w) ∧
      rateLimiter next r st w =
        ({ st with rate :=
          { requestCounts := mapSet st.rate.requestCounts r.remoteAddr
              (mapGet st.rate.requestCounts r.remoteAddr + 1),
            lastReset := st.rate.lastReset } },
          httpError w "Rate limit exceeded" 429) ∧
      (w.status = none → (rateLimiter next r st w).2.status = some 429)) ∧
    (r.now - st.rate.lastReset ≤ timeMinute →
      mapGet st.rate.requestCounts r.remoteAddr + 1 ≤ maxRequests →
      rateLimiter next r st w =
        next r { st with rate :=
          { requestCounts := mapSet st.rate.requestCounts r.remoteAddr
              (mapGet st.rate.requestCounts r.remoteAddr + 1),
            lastReset := st.rate.lastReset } } w) ∧
    ((runRequests (rateLimiter probe) (List.replicate 101 (limiterReq 0))
        World.init).2.map RW.status =
      List.replicate 100 (some 200) ++ [some 429]) ∧
    (mapGet (runRequests (rateLimiter probe)
        (List.replicate 101 (limiterReq 0))
        World.init).1.rate.requestCounts limiterAddr = 101) ∧
    ((rateLimiter probe (limiterReq (timeMinute + 1))
        (runRequests (rateLimiter probe) (List.replicate 101 (limiterReq 0))
          World.init).1 RW.init).2.status = some 200) ∧
    ((rateLimiter probe (limiterReq (timeMinute + 1))
        (runRequests (rateLimiter probe) (List.replicate 101 (limiterReq 0))
          World.init).1 RW.init).1.rate =
      { requestCounts := [(limiterAddr, 1)], lastReset := timeMinute + 1 }) := by
  refine ⟨fun h1 => ?_, fun h1 hc => ?_, fun h1 hc => ?_,
    by decide, by decide, by decide, by decide⟩
  · rw [rateLimiter]
    simp only [if_pos h1]
    simp [mapGet, mapSet, maxRequests]
  · have h1' : ¬ r.now - st.rate.lastReset > timeMinute := Nat.not_lt.mpr h1
    refine ⟨fun other => ?_, ?_, fun hw => ?_⟩ <;>
      simp [rateLimiter, if_neg h1', if_pos hc, httpError, writeHeader,
        writeBody, headerSet, *]
  · have h1' : ¬ r.now - st.rate.lastReset > timeMinute := Nat.not_lt.mpr h1
    have hc' : ¬ mapGet st.rate.requestCounts r.remoteAddr + 1 > maxRequests :=
      Nat.not_lt.mpr hc
    simp [rateLimiter, if_neg h1', if_neg hc']

theorem rateLimiter_spec_witness :
    (limiterReq (timeMinute + 1)).now - World.init.rate.lastReset >
      timeMinute ∧
    rateLimiter probe (limiterReq (timeMinute + 1)) World.init RW.init =
      probe (limiterReq (timeMinute + 1))
        { World.init with rate :=
          { requestCounts := [((limiterReq (timeMinute + 1)).remoteAddr, 1)],
            lastReset := (limiterReq (timeMinute + 1)).now } } RW.init :=
  ⟨by decide,
   (rateLimiter_spec probe (limiterReq (timeMinute + 1)) World.init
     RW.init).1 (by decide)⟩

/-- C8: the request logger only appends log lines; the response
(status, headers and body alike) is exactly the one produced by the
wrapped handler. -/
theorem requestLogger_transparent (next : HandlerFn) (r : Request)
    (st : World) (w : RW) :
    (requestLogger next r st w).2 =
      (next r (logTo st (requestLogLine r)) w).2 ∧
    (requestLogger next r st w).2.status =
      (next r (logTo st (requestLogLine r)) w).2.status ∧
    (requestLogger next r st w).2.headers =
      (next r (logTo st (requestLogLine r)) w).2.headers ∧
    (requestLogger next r st w).2.body =
      (next r (logTo st (requestLogLine r)) w).2.body :=
  ⟨rfl, rfl, rfl, rfl⟩

/-- C10: with securityHeaders outermost in both composed endpoints,
an OPTIONS request is answered 200 with nothing written to the body,
and the whole shared state — the rate-limit counter map, the reset
timestamp and the log — is left unchanged (no 429, no counting, no
logging). -/
theorem options_frame_spec (r : Request) (st : World) (w : RW)
    (h : r.method = "OPTIONS") :
    (∀ ef, ((mainHealthHandler ef) r st w).1 = st) ∧
    (∀ u, ((mainWeatherHandler u) r st w).1 = st) ∧
    (∀ ef, w.status = none →
      ((mainHealthHandler ef) r st w).2.status = some 200) ∧
    (∀ u, w.status = none →
      ((mainWeatherHandler u) r st w).2.status = some 200) ∧
    (∀ ef, ((mainHealthHandler ef) r st w).2.body = w.body) ∧
    (∀ u, ((mainWeatherHandler u) r st w).2.body = w.body) := by
  refine ⟨fun ef => ?_, fun u => ?_, fun ef hw => ?_, fun u hw => ?_,
    fun ef => ?_, fun u => ?_⟩ <;>
    simp [mainHealthHandler, mainWeatherHandler, securityHeaders, h,
      writeHeader_body, writeHeader_status_none, *]

theorem options_frame_spec_witness :
    ({ healthReq with method := "OPTIONS" } : Request).method = "OPTIONS" ∧
    ((mainHealthHandler false)
      { healthReq with method := "OPTIONS" } World.init RW.init).1 =
      World.init :=
  ⟨rfl, (options_frame_spec { healthReq with method := "OPTIONS" }
    World.init RW.init rfl).1 false⟩

/-- C4: every response of either composed endpoint carries the fixed
security and CORS header set, and an OPTIONS request is answered 200
by the middleware itself, without invoking the wrapped handler and
without writing a body. -/
theorem security_headers_spec :
    (∀ ef r st, hasSecurityHeaders ((mainHealthHandler ef) r st RW.init).2) ∧
    (∀ u r st, hasSecurityHeaders ((mainWeatherHandler u) r st RW.init).2) ∧
    (∀ (next : HandlerFn) (r : Request) (st : World) (w : RW),
      r.method = "OPTIONS" →
      (∀ other : HandlerFn,
        securityHeaders other r st w = securityHeaders next r st w) ∧
      (securityHeaders next r st w).1 = st ∧
      (w.status = none → (securityHeaders next r st w).2.status = some 200) ∧
      (securityHeaders next r st w).2.body = w.body) := by
  refine ⟨fun ef r st => ?_, fun u r st => ?_, fun next r st w h => ?_⟩
  · simp only [mainHealthHandler, securityHeaders, hasSecurityHeaders]
    split
    · dsimp only
      rw [writeHeader_headers]
      exact hasSec_chain _
    · exact hasSec_rateLimiter _ _ _ _
        (fun r' st' w' h' => hasSec_requestLogger _ _ _ _
          (fun r'' st'' w'' h'' => hasSec_helloHandler ef r'' st'' w'' h'')
          h')
        (hasSec_chain _)
  · simp only [mainWeatherHandler, securityHeaders, hasSecurityHeaders]
    split
    · dsimp only
      rw [writeHeader_headers]
      exact hasSec_chain _
    · exact hasSec_rateLimiter _ _ _ _
        (fun r' st' w' h' => hasSec_requestLogger _ _ _ _
          (fun r'' st'' w'' h'' => hasSec_weatherHandler u r'' st'' w'' h'')
          h')
        (hasSec_chain _)
  · refine ⟨fun other => ?_, ?_, fun hw => ?_, ?_⟩ <;>
      simp [securityHeaders, h, writeHeader_body, writeHeader_status_none, *]

theorem security_headers_spec_witness :
    ({ healthReq with method := "OPTIONS" } : Request).method = "OPTIONS" ∧
    (securityHeaders probe { healthReq with method := "OPTIONS" }
      World.init RW.init).1 = World.init :=
  ⟨rfl, ((security_headers_spec.2.2 probe
    { healthReq with method := "OPTIONS" } World.init RW.init rfl).2.1)⟩

theorem weather_empty_null_spec_witness :
    demoRespEmpty.hourly.time = [] ∧
    ((weatherHandler
        ⟨true, DoResult.ok 200 (ReadResult.bytes (some demoRespEmpty)), false⟩)
        weatherReq World.init RW.init).2.body = [BodyChunk.json Json.null] :=
  ⟨rfl, (weather_empty_null_spec weatherReq World.init demoRespEmpty rfl
    (Or.inl rfl)).2.2.1⟩
